import Mathlib

/-!
Verification of the NewsAgent job-orchestration substrate.

This file is a shallow embedding of the parts of the NewsAgent repository
that the queue, governance, scheduler and pipeline claims talk about:

* `src/main.py` (`submit_job`) and `src/worker.py` (`run_worker`) — the
  Redis-list work queue (LPUSH on submit, BLPOP in the worker loop);
* `src/utils/governance.py` (`GovernanceGatekeeper.can_fetch`) — the cached
  robots.txt decision;
* `src/scheduler/main.py` (`check_single_source`) — the discovery scheduler
  and the outbound effects it performs, modelled as an effect trace;
* `src/graph/...` — the pipeline state (`MainWorkflowState`), the nodes
  `generate_summary`, `validate_summary`, `select_best_summary`,
  `categorize_article`, `find_other_sources`, the conditional edge
  `check_summary_validity`, the extraction-strategy cascade of
  `raw_extraction`, and the prompt-set validation of
  `load_agent_configuration` / `AgentPromptsModel`.

LLM calls, browser fetches and network submissions are abstracted as
oracle parameters (an `LLMOutcome` is either a returned value or a raised
exception); everything else follows the Python control flow line by line.
Scores that the source stores as floats are embedded as rationals.
-/

namespace NewsAgent

/-! ## Work queue (src/main.py submit_job, src/worker.py run_worker)

A Redis list is a `List String` whose head is the LEFT end of the list.
`submit_job` pushes the serialized envelope with LPUSH (to the left);
the worker loop removes an envelope with `r.blpop(...)`, which pops from
the LEFT end as well. -/

/-- LPUSH: `r.lpush(settings.REDIS_QUEUE_NAME, json.dumps(job_payload))`
prepends the payload at the left end of the list (src/main.py, submit_job). -/
def lpush (q : List String) (payload : String) : List String :=
  payload :: q

/-- BLPOP: `r.blpop(settings.REDIS_QUEUE_NAME, timeout=0)` blocks until the
list is non-empty and then removes and returns the LEFT-most element
(src/worker.py, run_worker main loop). -/
def blpop (q : List String) : Option (String × List String) :=
  match q with
  | [] => none
  | x :: xs => some (x, xs)

/-- The queue contents after a single producer submits the envelopes
`es` in order via `/submit-job` (each submission is one LPUSH). -/
def enqueueAll (q : List String) (es : List String) : List String :=
  es.foldl lpush q

/-- A single worker repeatedly calling the blocking dequeue until the
queue is empty: the sequence of envelopes it observes, in order. -/
def drainQueue : List String → List String
  | [] => []
  | x :: xs => x :: drainQueue xs

theorem drainQueue_eq (q : List String) : drainQueue q = q := by
  induction q with
  | nil => rfl
  | cons x xs ih => simpa [drainQueue] using ih

theorem enqueueAll_eq (q : List String) (es : List String) :
    enqueueAll q es = es.reverse ++ q := by
  induction es generalizing q with
  | nil => rfl
  | cons e es ih => simp [enqueueAll, List.foldl] at ih ⊢; simp [ih, lpush]

/-- Claim C1 is FALSE on the code: a producer submits the two envelopes
"e1" then "e2" through submit_job (two LPUSH operations on the empty
queue); the worker then drains the queue with BLPOP and observes
"e2" before "e1", not the FIFO order "e1", "e2" that the claim states. -/
theorem c1_fifo_counterexample :
    drainQueue (enqueueAll [] ["e1", "e2"]) = ["e2", "e1"] ∧
    drainQueue (enqueueAll [] ["e1", "e2"]) ≠ ["e1", "e2"] := by
  constructor
  · rfl
  · decide

/-- Claim C1 (amended): `submit_job` pushes to the head of the Redis list
(LPUSH) and the worker dequeues with BLPOP, which pops from the HEAD as
well, so the main queue is a LIFO stack: when a single producer enqueues
e1 ... en and a single worker drains the queue afterwards, the worker
observes the envelopes in reverse order en ... e1. -/
theorem c1_queue_is_lifo (es : List String) :
    drainQueue (enqueueAll [] es) = es.reverse := by
  rw [drainQueue_eq, enqueueAll_eq, List.append_nil]

/-! ## Governance gatekeeper (src/utils/governance.py)

`GovernanceGatekeeper.can_fetch` consults a cached boolean decision for
the domain; on a cache miss it fetches and parses robots.txt and caches
the resulting boolean with `self.redis.setex(robots_key, 86400, ...)`.
The robots.txt fetch-and-parse is abstracted as `fetchResult`:
`some b` means the fetch succeeded and evaluated the configured
User-Agent to the decision `b`; `none` means `rp.read()` raised, which
the code turns into `is_allowed = True`. -/

/-- A write into the Redis robots cache: the boolean decision stored under
`robots_cache:<domain>` and the TTL (in seconds) passed to SETEX. -/
structure CacheWrite where
  value : Bool
  ttlSeconds : Nat
  deriving DecidableEq

/-- The method `GovernanceGatekeeper.can_fetch` (src/utils/governance.py lines 65-89):
given the cached decision for the domain (if any) and the outcome of the
live robots.txt fetch, it returns the boolean decision together with the
cache write it performs (no write on a cache hit). -/
def can_fetch (cachedStatus : Option Bool) (fetchResult : Option Bool) :
    Bool × Option CacheWrite :=
  match cachedStatus with
  | some b => (b, none)
  | none =>
    let is_allowed :=
      match fetchResult with
      | some b => b
      | none => true
    (is_allowed, some ⟨is_allowed, 86400⟩)

/-- Claim C6 is FALSE on the code: on a cache miss with a failed robots.txt
fetch, `can_fetch` default-allows and caches the decision with SETEX TTL
86400 seconds — exactly the 24-hour TTL used for decisions from a
successfully fetched robots.txt, not a strictly shorter duration. -/
theorem c6_failure_ttl_counterexample :
    can_fetch none none = (true, some ⟨true, 86400⟩) ∧
    can_fetch none (some true) = (true, some ⟨true, 86400⟩) ∧
    ¬ (86400 < 86400) := by
  refine ⟨rfl, rfl, ?_⟩
  decide

/-- Claim C6 (amended): in `can_fetch`, when the robots.txt fetch or parse
fails, the decision defaults to allow, and the boolean decision is cached
with the SAME 24-hour (86400 s) TTL that is used for decisions obtained
from a successfully fetched robots.txt; the code has a single SETEX call
covering both cases. -/
theorem c6_default_allow_same_ttl (fetchResult : Option Bool) :
    (can_fetch none none).1 = true ∧
    (can_fetch none fetchResult).2.all (fun w => w.ttlSeconds = 86400) := by
  cases fetchResult <;> simp [can_fetch]

/-! ## Discovery scheduler (src/scheduler/main.py check_single_source)

`check_single_source` is embedded as the trace of outbound effects it
performs. Its external collaborators are oracles: the listing-page fetch
(`fetchResult`, `none` when `fetch_listing_page` raises), the URL
extraction (`extract`, applied to the fetched HTML), the set of already
stored URLs (`existing`), whether each Mongo insert succeeds
(`insertOk`) and whether each POST to /submit-job succeeds (`submitOk`).
The trace records every effect in program order. -/

/-- One observable effect of a scheduler source check. `canFetch` and
`waitForSlot` are the two governance-gate operations; they are in the
effect alphabet precisely so that the trace can show whether
`check_single_source` ever invokes them. -/
inductive SchedEffect where
  | canFetch (url : String)
  | waitForSlot (url : String)
  | fetchListing (url : String)
  | insertArticle (url : String)
  | submitJob (url : String)
  | markSubmissionFailed (url : String)
  | updateLastRun
  | sendErrorEmail (jobId : String)
  deriving DecidableEq

/-- The effects of processing a single newly discovered URL inside
`check_single_source`: insert the DiscoveredArticle (on insert failure the
loop does `continue`, skipping the submission); then POST to /submit-job;
on submission failure the article status is set to submission_failed. -/
def submitNewUrl (insertOk : String → Bool) (submitOk : String → Bool)
    (link : String) : List SchedEffect :=
  if insertOk link then
    if submitOk link then
      [.insertArticle link, .submitJob link]
    else
      [.insertArticle link, .submitJob link, .markSubmissionFailed link]
  else
    []

/-- The coroutine `check_single_source` (src/scheduler/main.py lines 55-142), as the trace
of its outbound effects. The body starts directly with
`html = await fetch_listing_page(url)`: an exception there is caught by
the outer handler, which sends the error email with the synthetic job id
`scheduler-<source_id>`. When extraction finds no URLs, the last_run_at of the source is updated and the function returns. Otherwise found URLs are
deduplicated against the article store, each new URL is inserted and
submitted, and last_run_at is updated at the end. -/
def check_single_source (sourceId : String) (listingUrl : String)
    (fetchResult : Option String) (extract : String → List String)
    (existing : List String) (insertOk : String → Bool)
    (submitOk : String → Bool) : List SchedEffect :=
  match fetchResult with
  | none =>
    [.fetchListing listingUrl, .sendErrorEmail ("scheduler-" ++ sourceId)]
  | some html =>
    let found_urls := extract html
    if found_urls.isEmpty then
      [.fetchListing listingUrl, .updateLastRun]
    else
      let new_urls := found_urls.filter (fun u => ¬ existing.contains u)
      .fetchListing listingUrl ::
        (new_urls.flatMap (submitNewUrl insertOk submitOk) ++ [.updateLastRun])

/-- Claim C2 is FALSE on the code: for a concrete due source whose listing
fetch succeeds and yields one new URL, the trace of `check_single_source`
performs the outbound listing-page fetch but contains NO `canFetch` and NO
`waitForSlot` effect at all — the scheduler never consults the governance
gate, so the listing-page fetch bypasses it. -/
theorem c2_governance_counterexample :
    (SchedEffect.fetchListing "https://news.example/") ∈
      check_single_source "src-1" "https://news.example/"
        (some "<html>") (fun _ => ["https://news.example/a1"]) []
        (fun _ => true) (fun _ => true) ∧
    (SchedEffect.canFetch "https://news.example/") ∉
      check_single_source "src-1" "https://news.example/"
        (some "<html>") (fun _ => ["https://news.example/a1"]) []
        (fun _ => true) (fun _ => true) ∧
    (SchedEffect.waitForSlot "https://news.example/") ∉
      check_single_source "src-1" "https://news.example/"
        (some "<html>") (fun _ => ["https://news.example/a1"]) []
        (fun _ => true) (fun _ => true) := by
  refine ⟨?_, ?_, ?_⟩ <;> decide

/-- A trace effect is a governance-gate operation when it is a `canFetch`
or a `waitForSlot` call. -/
def SchedEffect.isGovernance : SchedEffect → Bool
  | .canFetch _ => true
  | .waitForSlot _ => true
  | _ => false

theorem submitNewUrl_no_governance (insertOk submitOk : String → Bool)
    (link : String) (e : SchedEffect)
    (he : e ∈ submitNewUrl insertOk submitOk link) :
    e.isGovernance = false := by
  unfold submitNewUrl at he
  split at he <;> [skip; simp at he]
  split at he <;>
    simp only [List.mem_cons, List.not_mem_nil, or_false] at he <;>
    rcases he with h | h | h <;>
    (try subst h) <;> simp_all [SchedEffect.isGovernance]

/-- Claim C2 (amended): the discovery scheduler performs the listing-page
fetch WITHOUT the governance gate: for every due source and every oracle
behaviour, the trace of `check_single_source` contains a `fetchListing`
effect (as its first effect) and contains no `canFetch` and no
`waitForSlot` effect. The governance gate is invoked only by the
raw_extraction node of the pipeline, not by the scheduler. -/
theorem c2_scheduler_bypasses_governance (sourceId listingUrl : String)
    (fetchResult : Option String) (extract : String → List String)
    (existing : List String) (insertOk submitOk : String → Bool) :
    (check_single_source sourceId listingUrl fetchResult extract existing
        insertOk submitOk).head? = some (.fetchListing listingUrl) ∧
    ∀ e ∈ check_single_source sourceId listingUrl fetchResult extract existing
        insertOk submitOk, e.isGovernance = false := by
  constructor
  · unfold check_single_source
    cases fetchResult with
    | none => rfl
    | some html =>
      by_cases h : (extract html).isEmpty <;> simp [h]
  · intro e he
    unfold check_single_source at he
    cases fetchResult with
    | none =>
      simp only [List.mem_cons, List.not_mem_nil, or_false] at he
      rcases he with h | h <;> subst h <;> rfl
    | some html =>
      simp only [] at he
      split at he
      · simp only [List.mem_cons, List.not_mem_nil, or_false] at he
        rcases he with h | h <;> subst h <;> rfl
      · simp only [List.mem_cons, List.mem_append, List.not_mem_nil,
          or_false] at he
        rcases he with h | h | h
        · subst h; rfl
        · obtain ⟨l, _, hl⟩ := List.mem_flatMap.mp h
          exact submitNewUrl_no_governance _ _ _ _ hl
        · subst h; rfl

/-! ## Workflow data model (src/models/...)

Pydantic models become Lean structures. Float scores become rationals.
Python truthiness of an `Optional[str]` field (`if not x:` is taken for
both `None` and the empty string) is `optStrFalsy`. -/

/-- Truthiness test used by the Python guards `if not state.<field>:` on an
`Optional[str]` value: `None` and the empty string are falsy. -/
def optStrFalsy : Option String → Bool
  | none => true
  | some s => s.isEmpty

/-- src/models/ValidationResultModel.py: structured output of the critic
node, with the defaults declared there (`is_valid=False`,
`feedback="Validation not yet run."`, both scores `None`). -/
structure ValidationResultModel where
  is_valid : Bool := false
  feedback : String := "Validation not yet run."
  semantic_score : Option ℚ := none
  tone_score : Option ℚ := none
  deriving DecidableEq

/-- src/models/SummaryAttemptModel.py: one recorded summary attempt. -/
structure SummaryAttemptModel where
  summary : String
  validation : ValidationResultModel
  deriving DecidableEq

/-- Modelled from the spec: src/models/ArticleModel.py is not among the
provided sources (only its importers are); the WorkflowState section of the spec lists the fields of the article record. Only the fields the verified
nodes read or write are embedded: title, content, summary,
published_date, author, top_image, category and category_ids. -/
structure ArticleModel where
  title : Option String := none
  content : Option String := none
  summary : Option String := none
  published_date : Option String := none
  author : Option String := none
  top_image : Option String := none
  category : List String := []
  category_ids : List String := []
  deriving DecidableEq

/-- src/models/AgentPromptsModel.py: the prompt bundle. The pydantic class
declares EXACTLY these 14 required string fields — it has no
translation_system, translation_user, country_extraction_system or
country_extraction_user field. -/
structure AgentPromptsModel where
  content_extractor : String
  summary_system : String
  summary_initial_user : String
  summary_retry_user : String
  validation_system : String
  validation_user : String
  relevance_system : String
  relevance_user : String
  search_system : String
  search_user : String
  categorization_system : String
  categorization_user : String
  seo_system : String
  seo_user : String
  deriving DecidableEq

/-- src/models/MainWorkflowState.py: the state threaded through the graph.
`category_mapping` is not declared in the Python class; it is attached
dynamically by `load_agent_configuration` via `model_copy(update=...)`
and read by `categorize_article` as `state.category_mapping or {}`, so it
is embedded as an optional association list (name, external_id).
`other_sources` keeps only the result URLs; `search_query_data` keeps the
generated query list. -/
structure MainWorkflowState where
  source_url : String
  cleaned_article_text : Option String := none
  cleaned_article_html : Option String := none
  news_article : Option ArticleModel := none
  active_prompts : Option AgentPromptsModel := none
  category_mapping : Option (List (String × String)) := none
  validation_count : Nat := 0
  validation_result : Option ValidationResultModel := none
  summary_attempts : List SummaryAttemptModel := []
  other_sources : List String := []
  search_query_data : Option (List String) := none
  max_retries : Nat := 3
  error_message : Option String := none
  deriving DecidableEq

/-- Outcome of an external call (LLM invocation, search tool):
either a returned value or a raised exception with its message. -/
inductive LLMOutcome (α : Type) where
  | ok (val : α)
  | exn (msg : String)

/-! ## Pipeline nodes (src/graph/nodes/...) -/

/-- Which user-prompt template `generate_summary` formats: the initial
template on a first attempt, the retry template (which embeds the
previous feedback) otherwise. -/
inductive SummaryPromptChoice where
  | initial
  | retry
  deriving DecidableEq

/-- The template condition in src/graph/nodes/summary_generator.py line 40:
`if state.validation_result and state.validation_result.feedback !=
"Validation not yet run.":` choose the retry prompt, else the initial
prompt. -/
def summaryPromptChoice (s : MainWorkflowState) : SummaryPromptChoice :=
  match s.validation_result with
  | some vr =>
    if vr.feedback ≠ "Validation not yet run." then .retry else .initial
  | none => .initial

/-- src/graph/nodes/summary_generator.py `generate_summary`: guards on the
cleaned text and the article record, chooses the prompt template, invokes
the LLM (the oracle `llm`), and on success stores the summary and clears
`validation_result`; a raised exception is caught and recorded in
`error_message`. Returns the updated state together with the template
that was chosen (`none` when a guard fired before any prompt was built). -/
def generate_summary (llm : LLMOutcome String) (s : MainWorkflowState) :
    MainWorkflowState × Option SummaryPromptChoice :=
  if optStrFalsy s.cleaned_article_text then
    ({ s with
        error_message := some "Cannot generate summary: cleaned_article_text is missing." },
      none)
  else
    match s.news_article with
    | none =>
      ({ s with
          error_message := some "Cannot generate summary: news_article model is missing." },
        none)
    | some art =>
      let choice := summaryPromptChoice s
      match llm with
      | .exn m =>
        ({ s with error_message := some ("Error in generate_summary: " ++ m) },
          some choice)
      | .ok summary_text =>
        ({ s with
            news_article := some { art with summary := some summary_text },
            validation_result := none }, some choice)

/-- src/graph/nodes/validate_summary.py `validate_summary`: guards on the
cleaned text and on the presence of a summary, invokes the critic LLM,
and on success appends the attempt, sets `validation_result` and sets
`validation_count = len(summary_attempts)`; exceptions are caught into
`error_message`. Note that this node does NOT inspect `error_message`
before running. -/
def validate_summary (llm : LLMOutcome ValidationResultModel)
    (s : MainWorkflowState) : MainWorkflowState :=
  if optStrFalsy s.cleaned_article_text then
    { s with
        error_message := some "Cannot validate: cleaned_article_text is missing." }
  else
    match s.news_article with
    | none =>
      { s with error_message := some "Cannot validate: summary is missing." }
    | some art =>
      if optStrFalsy art.summary then
        { s with error_message := some "Cannot validate: summary is missing." }
      else
        match llm with
        | .exn m =>
          { s with error_message := some ("Error in validate_summary: " ++ m) }
        | .ok vr =>
          let updated_attempts_list :=
            s.summary_attempts ++ [⟨(art.summary).getD "", vr⟩]
          { s with
              validation_result := some vr,
              summary_attempts := updated_attempts_list,
              validation_count := updated_attempts_list.length }

/-- Result of the conditional edge after `validate_summary`. -/
inductive LoopEdge where
  | regenerate
  | end_loop
  deriving DecidableEq

/-- src/graph/nodes/conditional_edges.py `check_summary_validity`:
end the loop when there is no validation result (safety check), when the
summary is valid, or when `validation_count >= max_retries`; otherwise
regenerate. -/
def check_summary_validity (s : MainWorkflowState) : LoopEdge :=
  match s.validation_result with
  | none => .end_loop
  | some vr =>
    if vr.is_valid then .end_loop
    else if s.max_retries ≤ s.validation_count then .end_loop
    else .regenerate

/-- The score Python reads for an attempt:
`attempt.validation.semantic_score or 0.0` (None becomes 0.0). -/
def attemptScore (a : SummaryAttemptModel) : ℚ :=
  (a.validation.semantic_score).getD 0

/-- Python `max(xs, key=k)` over a non-empty list: scan left to right and
replace the current best only on a STRICTLY greater key, so the first
attempt with the maximal key wins ties. -/
def pythonMaxBy (key : SummaryAttemptModel → ℚ) (x : SummaryAttemptModel)
    (xs : List SummaryAttemptModel) : SummaryAttemptModel :=
  xs.foldl (fun best y => if key best < key y then y else best) x

/-- src/graph/nodes/select_best_summary.py `select_best_summary`: the one
loop node with an explicit fail-fast check on `error_message`; on an
empty attempt list it records an error; otherwise it picks the attempt
with the greatest semantic score (None scored as 0), copies its summary
into the article and makes its validation the terminal
`validation_result`. The branch for a missing article record models the
AttributeError that `state.news_article.model_copy` would raise, which
the except-handler turns into an error message. -/
def select_best_summary (s : MainWorkflowState) : MainWorkflowState :=
  if optStrFalsy s.error_message = false then s
  else
    match s.summary_attempts with
    | [] => { s with error_message := some "No summaries to select from." }
    | a :: rest =>
      match s.news_article with
      | none =>
        { s with
            error_message := some "Error in select_best_summary: news_article is missing" }
      | some art =>
        let best_attempt := pythonMaxBy attemptScore a rest
        { s with
            news_article := some { art with summary := some best_attempt.summary },
            validation_result := some best_attempt.validation }

/-- The Python regex substitution in categorize_article that deletes every
character matching the class complementary to word-and-whitespace: it
neither a word character (alphanumeric or underscore) nor whitespace. -/
def pythonStripPunct (s : String) : String :=
  String.mk (s.data.filter (fun c => c.isAlphanum || c = '_' || c.isWhitespace))

/-- Python `str.lower()` over the characters of the string. -/
def pythonLower (s : String) : String :=
  String.mk (s.data.map Char.toLower)

/-- Python `str.strip()`: remove leading and trailing whitespace. -/
def pythonStrip (s : String) : String :=
  String.mk
    (((s.data.dropWhile Char.isWhitespace).reverse.dropWhile
      Char.isWhitespace).reverse)

/-- The normalization applied in categorize_article to both map keys and
predicted names: the punctuation-deleting regex substitution, then
`lower`, then `strip`. -/
def normalizeCategoryName (s : String) : String :=
  pythonStrip (pythonLower (pythonStripPunct s))

/-- Python dict insertion on an association list: overwrite the value when
the key is already present, append otherwise. -/
def dictInsert (m : List (String × String)) (k v : String) :
    List (String × String) :=
  if (m.lookup k).isSome then
    m.map (fun p => if p.1 = k then (k, v) else p)
  else
    m ++ [(k, v)]

/-- The `normalized_map` built once in categorize_article lines 63-66:
every mapping entry (name, uid) is inserted under the normalized name;
duplicate normalized keys keep the LAST value, as in a Python dict. -/
def buildNormalizedMap (mapping : List (String × String)) :
    List (String × String) :=
  mapping.foldl (fun acc p => dictInsert acc (normalizeCategoryName p.1) p.2) []

/-- The resolution loop of categorize_article lines 68-81: for each
predicted name try the exact dict lookup first, then the normalized
lookup; names matching neither are logged and skipped. -/
def resolveCategoryIds (mapping : List (String × String))
    (predicted : List String) : List String :=
  let normalized_map := buildNormalizedMap mapping
  predicted.foldl (fun mapped_ids cat_name =>
    match mapping.lookup cat_name with
    | some uid => mapped_ids ++ [uid]
    | none =>
      match normalized_map.lookup (normalizeCategoryName cat_name) with
      | some uid => mapped_ids ++ [uid]
      | none => mapped_ids) []

/-- src/graph/nodes/categorize_article.py `categorize_article`: guard on
article/summary, read the cleaned-text snippet (a `None` text makes the
slice raise, caught by the except-handler), invoke the classifier LLM
(oracle, returning the predicted names), resolve ids, and store the
names and ids on the article. No fail-fast check on `error_message`. -/
def categorize_article (llm : LLMOutcome (List String))
    (s : MainWorkflowState) : MainWorkflowState :=
  match s.news_article with
  | none =>
    { s with error_message := some "No article/summary found for categorization." }
  | some art =>
    if optStrFalsy art.summary then
      { s with error_message := some "No article/summary found for categorization." }
    else
      match s.cleaned_article_text with
      | none =>
        { s with error_message := some "Error in categorize: cleaned_article_text is None" }
      | some _ =>
        match llm with
        | .exn m => { s with error_message := some ("Error in categorize: " ++ m) }
        | .ok predicted_categories =>
          let category_map := (s.category_mapping).getD []
          let mapped_ids := resolveCategoryIds category_map predicted_categories
          { s with
              news_article := some { art with
                category := predicted_categories,
                category_ids := mapped_ids } }

/-- src/graph/nodes/find_other_sources.py `find_other_sources`: guard on
article/summary, generate search queries with a structured-output LLM
(oracle `llmQueries`), then execute the queries sequentially with the
search tool (oracle `search`; a per-query exception is caught and that
query contributes nothing), deduplicating result URLs against a seen-set
initialized with the source URL. No fail-fast check on `error_message`. -/
def find_other_sources (llmQueries : LLMOutcome (List String))
    (search : String → LLMOutcome (List String))
    (s : MainWorkflowState) : MainWorkflowState :=
  match s.news_article with
  | none =>
    { s with error_message := some "No article/summary found for web search." }
  | some art =>
    if optStrFalsy art.summary then
      { s with error_message := some "No article/summary found for web search." }
    else
      match llmQueries with
      | .exn m =>
        { s with error_message := some ("Error in find_other_sources: " ++ m) }
      | .ok search_queries =>
        let perResult := fun (acc : List String × List String) (url : String) =>
          if acc.2.contains url then acc else (acc.1 ++ [url], acc.2 ++ [url])
        let perQuery := fun (acc : List String × List String) (q : String) =>
          match search q with
          | .exn _ => acc
          | .ok results => results.foldl perResult acc
        let out := search_queries.foldl perQuery ([], [s.source_url])
        { s with
            other_sources := out.1,
            search_query_data := some search_queries }

/-! ## Extraction cascade (src/graph/nodes/raw_extraction.py)

The fetch node tries three extraction strategies. The browser fetch and
the DOM parsing are abstracted: `newspaperText` is the text strategy A
(Newspaper4k) produced, `jsonLdBodies` the cleaned articleBody strings
found in JSON-LD scripts in document order, and `selectorTexts` the
joined texts of the CSS-selector hits in selector-priority order. -/

/-- The strategy cascade (lines 80-149): keep strategy A text; if it is
empty or shorter than 200 characters, adopt the first JSON-LD body
LONGER than 200 characters; if still empty or shorter than 200, adopt
the first selector text longer than 200 characters. -/
def chooseExtractedText (newspaperText : String) (jsonLdBodies : List String)
    (selectorTexts : List String) : String :=
  let t1 := newspaperText
  let t2 :=
    if t1.length < 200 then
      match jsonLdBodies.find? (fun b => 200 < b.length) with
      | some b => b
      | none => t1
    else t1
  if t2.length < 200 then
    match selectorTexts.find? (fun b => 200 < b.length) with
    | some b => b
    | none => t2
  else t2

/-- The final quality check of raw_extraction (lines 151-161): the node
sets `error_message` exactly when the chosen text is empty or SHORTER
THAN 50 characters; otherwise it succeeds with the chosen text as the
extracted body (`cleaned_article_text`). -/
def raw_extraction_text (pageTitle : String) (newspaperText : String)
    (jsonLdBodies : List String) (selectorTexts : List String) :
    Except String String :=
  let t := chooseExtractedText newspaperText jsonLdBodies selectorTexts
  if t.isEmpty || t.length < 50 then
    .error ("Extracted content is empty. Page Title: " ++ pageTitle)
  else
    .ok t

/-! ## Prompt configuration (src/graph/nodes/load_agent_configuration.py) -/

/-- The REQUIRED_PROMPTS list of load_agent_configuration lines 24-43:
the 18 logical prompt names the Mongo query filters on. -/
def REQUIRED_PROMPTS : List String :=
  ["content_extractor",
   "summary_system",
   "summary_initial_user",
   "summary_retry_user",
   "validation_system",
   "validation_user",
   "relevance_system",
   "relevance_user",
   "search_system",
   "search_user",
   "categorization_system",
   "categorization_user",
   "seo_system",
   "seo_user",
   "translation_system",
   "translation_user",
   "country_extraction_system",
   "country_extraction_user"]

/-- The Mongo fetch of active prompts: the store (name to active content)
restricted to the names in REQUIRED_PROMPTS, as produced by the
`find({"name": ..., "status": ACTIVE})` query. -/
def fetchActivePrompts (store : String → Option String) :
    String → Option String :=
  fun name => if REQUIRED_PROMPTS.contains name then store name else none

/-- Pydantic construction `AgentPromptsModel(**raw_prompts_dict)`:
succeeds precisely when every DECLARED field of the class is present in
the dict; keys of the dict that are not declared fields are ignored
(pydantic default config). -/
def buildAgentPromptsModel (raw : String → Option String) :
    Option AgentPromptsModel := do
  let content_extractor ← raw "content_extractor"
  let summary_system ← raw "summary_system"
  let summary_initial_user ← raw "summary_initial_user"
  let summary_retry_user ← raw "summary_retry_user"
  let validation_system ← raw "validation_system"
  let validation_user ← raw "validation_user"
  let relevance_system ← raw "relevance_system"
  let relevance_user ← raw "relevance_user"
  let search_system ← raw "search_system"
  let search_user ← raw "search_user"
  let categorization_system ← raw "categorization_system"
  let categorization_user ← raw "categorization_user"
  let seo_system ← raw "seo_system"
  let seo_user ← raw "seo_user"
  pure ⟨content_extractor, summary_system, summary_initial_user,
    summary_retry_user, validation_system, validation_user, relevance_system,
    relevance_user, search_system, search_user, categorization_system,
    categorization_user, seo_system, seo_user⟩

/-- src/graph/nodes/load_agent_configuration.py `load_agent_configuration`:
fetch the active prompts for the 18 names, validate via
`AgentPromptsModel(**raw_prompts_dict)`, load the category mapping, and
populate the state; a pydantic validation error is caught into
`error_message` (fatal — the rest of the pipeline sees the error). -/
def load_agent_configuration (store : String → Option String)
    (categories : List (String × String)) (s : MainWorkflowState) :
    MainWorkflowState :=
  match buildAgentPromptsModel (fetchActivePrompts store) with
  | some prompts_model =>
    { s with
        active_prompts := some prompts_model,
        category_mapping := some categories }
  | none =>
    { s with
        error_message := some "Failed to load agent configuration: missing required prompt" }

/-! ## The generate/validate loop and the graph topology (src/graph/graph.py)

`MainWorkflow.create_workflow` wires the nodes in a straight line with a
single conditional edge after validate_summary. Two projections are
embedded: `runValidationLoop` runs the cycle generate_summary →
validate_summary → check_summary_validity with the concrete node
embeddings (the per-iteration LLM outcomes are oracles indexed by the
iteration number), and `runGraph` runs the full node topology with
arbitrary node semantics, recording the trace of visited nodes. Fuel
models the LangGraph recursion limit: `none` is a run aborted before
completion. -/

/-- The generate → validate → edge cycle of the compiled graph, starting
at generate_summary. Returns the state in which the edge decided
end_loop, or `none` when the fuel (recursion limit) ran out first. -/
def runValidationLoop (gen : Nat → LLMOutcome String)
    (val : Nat → LLMOutcome ValidationResultModel) :
    Nat → Nat → MainWorkflowState → Option MainWorkflowState
  | 0, _, _ => none
  | fuel + 1, i, s =>
    let s1 := (generate_summary (gen i) s).1
    let s2 := validate_summary (val i) s1
    match check_summary_validity s2 with
    | .end_loop => some s2
    | .regenerate => runValidationLoop gen val fuel (i + 1) s2

/-- The node names of the compiled workflow graph, as added in
MainWorkflow.create_workflow. -/
inductive GraphNode where
  | load_agent_configuration
  | fetch_content
  | extract_links
  | generate_summary
  | validate_summary
  | select_best_summary
  | check_embedded_links
  | find_other_sources
  | categorize_article
  | generate_seo
  | notify_webhook
  deriving DecidableEq

/-- The edges of src/graph/graph.py lines 62-85: a straight line with one
conditional edge at validate_summary (regenerate → generate_summary,
end_loop → select_best_summary) and END after notify_webhook. The
successor is computed from the state EMITTED by the node just run. -/
def nextNode (s : MainWorkflowState) : GraphNode → Option GraphNode
  | .load_agent_configuration => some .fetch_content
  | .fetch_content => some .extract_links
  | .extract_links => some .generate_summary
  | .generate_summary => some .validate_summary
  | .validate_summary =>
    match check_summary_validity s with
    | .regenerate => some .generate_summary
    | .end_loop => some .select_best_summary
  | .select_best_summary => some .check_embedded_links
  | .check_embedded_links => some .find_other_sources
  | .find_other_sources => some .categorize_article
  | .categorize_article => some .generate_seo
  | .generate_seo => some .notify_webhook
  | .notify_webhook => none

/-- Execute the graph topology from node `n`: apply the node semantics
`step`, follow the edges of `nextNode`, and record the visited nodes.
`none` models a run aborted by the recursion limit. -/
def runGraph (step : GraphNode → MainWorkflowState → MainWorkflowState) :
    Nat → GraphNode → MainWorkflowState →
    Option (MainWorkflowState × List GraphNode)
  | 0, _, _ => none
  | fuel + 1, n, s =>
    let s' := step n s
    match nextNode s' n with
    | none => some (s', [n])
    | some m => (runGraph step fuel m s').map (fun r => (r.1, n :: r.2))

/-- How many times a completed run visits select_best_summary when it
starts at the given node: once from every node at or before the loop,
zero from every node strictly after it. -/
def selectVisitsFrom : GraphNode → Nat
  | .load_agent_configuration => 1
  | .fetch_content => 1
  | .extract_links => 1
  | .generate_summary => 1
  | .validate_summary => 1
  | .select_best_summary => 1
  | .check_embedded_links => 0
  | .find_other_sources => 0
  | .categorize_article => 0
  | .generate_seo => 0
  | .notify_webhook => 0

theorem runGraph_select_count
    (step : GraphNode → MainWorkflowState → MainWorkflowState) :
    ∀ (fuel : Nat) (n : GraphNode) (s s' : MainWorkflowState)
      (tr : List GraphNode), runGraph step fuel n s = some (s', tr) →
      tr.count .select_best_summary = selectVisitsFrom n := by
  intro fuel
  induction fuel with
  | zero => intro n s s' tr h; simp [runGraph] at h
  | succ fuel ih =>
    intro n s s' tr h
    unfold runGraph at h
    cases n <;> simp only [nextNode] at h
    case notify_webhook =>
      simp only [Option.some.injEq, Prod.mk.injEq] at h
      obtain ⟨-, rfl⟩ := h
      decide
    case validate_summary =>
      rcases hedge : check_summary_validity (step .validate_summary s) with _ | _ <;>
        simp only [hedge, Option.map_eq_some'] at h <;>
        obtain ⟨⟨s₁, tr₁⟩, hrun, heq⟩ := h <;>
        obtain ⟨-, rfl⟩ := Prod.mk.injEq .. ▸ heq <;>
        simpa [List.count_cons, selectVisitsFrom] using ih _ _ _ _ hrun
    all_goals
      simp only [Option.map_eq_some'] at h
      obtain ⟨⟨s₁, tr₁⟩, hrun, heq⟩ := h
      obtain ⟨-, rfl⟩ := Prod.mk.injEq .. ▸ heq
      simpa [List.count_cons, selectVisitsFrom] using ih _ _ _ _ hrun

theorem generate_summary_frame (llm : LLMOutcome String)
    (s : MainWorkflowState) :
    (generate_summary llm s).1.validation_count = s.validation_count ∧
    (generate_summary llm s).1.summary_attempts = s.summary_attempts ∧
    (generate_summary llm s).1.max_retries = s.max_retries := by
  unfold generate_summary
  split
  · exact ⟨rfl, rfl, rfl⟩
  · split
    · exact ⟨rfl, rfl, rfl⟩
    · split <;> exact ⟨rfl, rfl, rfl⟩

theorem validate_summary_cases (llm : LLMOutcome ValidationResultModel)
    (s : MainWorkflowState) :
    (validate_summary llm s).max_retries = s.max_retries ∧
    (((validate_summary llm s).validation_count = s.validation_count ∧
      (validate_summary llm s).summary_attempts = s.summary_attempts) ∨
     ((validate_summary llm s).validation_count = s.summary_attempts.length + 1 ∧
      (validate_summary llm s).summary_attempts.length =
        s.summary_attempts.length + 1)) := by
  unfold validate_summary
  split
  · exact ⟨rfl, Or.inl ⟨rfl, rfl⟩⟩
  · split
    · exact ⟨rfl, Or.inl ⟨rfl, rfl⟩⟩
    · split
      · exact ⟨rfl, Or.inl ⟨rfl, rfl⟩⟩
      · split
        · exact ⟨rfl, Or.inl ⟨rfl, rfl⟩⟩
        · refine ⟨rfl, Or.inr ⟨?_, ?_⟩⟩ <;> simp

theorem check_regenerate_lt (s : MainWorkflowState)
    (h : check_summary_validity s = .regenerate) :
    s.validation_count < s.max_retries := by
  unfold check_summary_validity at h
  rcases hv : s.validation_result with _ | vr <;> rw [hv] at h
  · simp at h
  · by_cases hval : vr.is_valid = true
    · simp [hval] at h
    · by_cases hle : s.max_retries ≤ s.validation_count
      · simp [hval, hle] at h
      · omega

theorem check_summary_validity_end_iff (s : MainWorkflowState) :
    check_summary_validity s = .end_loop ↔
      (s.validation_result = none ∨
       ∃ vr, s.validation_result = some vr ∧
         (vr.is_valid = true ∨ s.max_retries ≤ s.validation_count)) := by
  unfold check_summary_validity
  rcases hv : s.validation_result with _ | vr
  · simp [hv]
  · by_cases hval : vr.is_valid = true
    · simp [hval]
    · by_cases hle : s.max_retries ≤ s.validation_count
      · simp [hval, hle]
      · simp [hval, hle]

theorem runValidationLoop_count_bound (gen : Nat → LLMOutcome String)
    (val : Nat → LLMOutcome ValidationResultModel) :
    ∀ (fuel i : Nat) (s s' : MainWorkflowState),
      s.validation_count = s.summary_attempts.length →
      (s.validation_count = 0 ∨ s.validation_count < s.max_retries) →
      runValidationLoop gen val fuel i s = some s' →
      s'.validation_count ≤ s'.max_retries + 1 := by
  intro fuel
  induction fuel with
  | zero => intro i s s' _ _ h; simp [runValidationLoop] at h
  | succ fuel ih =>
    intro i s s' hinv hentry h
    unfold runValidationLoop at h
    dsimp only [] at h
    obtain ⟨hg1, hg2, hg3⟩ := generate_summary_frame (gen i) s
    obtain ⟨hv1, hv2⟩ :=
      validate_summary_cases (val i) ((generate_summary (gen i) s).1)
    generalize hs2eq :
      validate_summary (val i) ((generate_summary (gen i) s).1) = s2 at h hv1 hv2
    have hmax2 : s2.max_retries = s.max_retries := by rw [hv1, hg3]
    have hinv2 : s2.validation_count = s2.summary_attempts.length := by
      rcases hv2 with ⟨hc, ha⟩ | ⟨hc, ha⟩
      · rw [hc, ha, hg1, hg2]; exact hinv
      · rw [hc, ha]
    have hcnt2 : s2.validation_count = s.validation_count ∨
        s2.validation_count = s.validation_count + 1 := by
      rcases hv2 with ⟨hc, _⟩ | ⟨hc, _⟩
      · left; rw [hc, hg1]
      · right; rw [hc, hg2, ← hinv]
    rcases hedge : check_summary_validity s2 with _ | _ <;> rw [hedge] at h
    · exact ih (i + 1) s2 s' hinv2 (Or.inr (check_regenerate_lt s2 hedge)) h
    · injection h with h
      subst h
      omega

/-- Claim C7 is FALSE as stated: the validity edge also ends the loop when
`validation_result` is unset (the safety check at the top of
check_summary_validity), which happens on a reachable state — here the
state produced by a successful generation followed by a validator LLM
exception: the edge returns end_loop although the latest validation is
not valid (there is none) and validation_count = 0 < max_retries = 3,
where the claim requires it to loop back to generate_summary. -/
theorem c7_validity_edge_counterexample :
    check_summary_validity
        (validate_summary (.exn "LLM timeout")
          ((generate_summary (.ok "a summary")
            { source_url := "https://example.com/a",
              cleaned_article_text := some "body text",
              news_article := some {} }).1)) = .end_loop ∧
    (validate_summary (.exn "LLM timeout")
        ((generate_summary (.ok "a summary")
          { source_url := "https://example.com/a",
            cleaned_article_text := some "body text",
            news_article := some {} }).1)).validation_result = none ∧
    (validate_summary (.exn "LLM timeout")
        ((generate_summary (.ok "a summary")
          { source_url := "https://example.com/a",
            cleaned_article_text := some "body text",
            news_article := some {} }).1)).validation_count = 0 ∧
    ¬ (3 ≤ (validate_summary (.exn "LLM timeout")
        ((generate_summary (.ok "a summary")
          { source_url := "https://example.com/a",
            cleaned_article_text := some "body text",
            news_article := some {} }).1)).validation_count) := by
  refine ⟨?_, ?_, ?_, ?_⟩ <;> decide

/-- Claim C7 (amended): for every run, `validation_count ≤ max_retries + 1`
(shown for every terminating execution of the generate/validate cycle
whose entry state satisfies the count/attempts invariant), every
completed run of the full graph executes select_best_summary exactly
once, and the validity edge leaves the loop iff `validation_result` is
unset (safety check), OR the latest validation is valid, OR
`validation_count >= max_retries`; otherwise it loops back. -/
theorem c7_loop_bound_and_select_once (gen : Nat → LLMOutcome String)
    (val : Nat → LLMOutcome ValidationResultModel)
    (step : GraphNode → MainWorkflowState → MainWorkflowState)
    (fuel gfuel i : Nat) (s s' gs gs' : MainWorkflowState)
    (tr : List GraphNode)
    (hinv : s.validation_count = s.summary_attempts.length)
    (hentry : s.validation_count = 0 ∨ s.validation_count < s.max_retries)
    (hloop : runValidationLoop gen val fuel i s = some s')
    (hgraph : runGraph step gfuel .load_agent_configuration gs =
      some (gs', tr)) :
    s'.validation_count ≤ s'.max_retries + 1 ∧
    tr.count .select_best_summary = 1 ∧
    (∀ t : MainWorkflowState, check_summary_validity t = .end_loop ↔
      (t.validation_result = none ∨
       ∃ vr, t.validation_result = some vr ∧
         (vr.is_valid = true ∨ t.max_retries ≤ t.validation_count))) :=
  ⟨runValidationLoop_count_bound gen val fuel i s s' hinv hentry hloop,
   runGraph_select_count step gfuel _ gs gs' tr hgraph,
   check_summary_validity_end_iff⟩

/-! ## Fail-fast rule (claim C3) -/

/-- A state with `error_message` already set by an upstream node (here the
Playwright failure path of the fetch node) and no article record. -/
def c3ErrorState : MainWorkflowState :=
  { source_url := "https://example.com/a",
    cleaned_article_text := some "some article text",
    error_message := some "Playwright Error: timeout" }

/-- Claim C3 is FALSE on the code: `categorize_article` (one of the cited
nodes) does not inspect `error_message` first; on a state whose
`error_message` is already set it does NOT return the state unchanged —
its own guard fires and OVERWRITES the upstream error message. -/
theorem c3_fail_fast_counterexample :
    c3ErrorState.error_message = some "Playwright Error: timeout" ∧
    categorize_article (.ok []) c3ErrorState ≠ c3ErrorState ∧
    (categorize_article (.ok []) c3ErrorState).error_message =
      some "No article/summary found for categorization." := by
  refine ⟨rfl, ?_, rfl⟩
  decide

/-- Claim C3 (amended): the fail-fast rule is implemented only by some of
the nodes: `select_best_summary` (together with check_embedded_links and
notify_webhook in the source) begins with the check and returns a state
with a truthy `error_message` unchanged, while `validate_summary`,
`categorize_article` and `find_other_sources` run their own guards first
and can overwrite `error_message`. -/
theorem c3_select_best_summary_fail_fast (s : MainWorkflowState)
    (h : optStrFalsy s.error_message = false) :
    select_best_summary s = s := by
  unfold select_best_summary
  simp [h]

/-- Witness for c3_select_best_summary_fail_fast at the concrete error
state of the counterexample. -/
theorem c3_select_best_summary_fail_fast_witness :
    optStrFalsy c3ErrorState.error_message = false ∧
    select_best_summary c3ErrorState = c3ErrorState :=
  ⟨by decide, c3_select_best_summary_fail_fast c3ErrorState (by decide)⟩

/-! ## Extraction thresholds (claim C4) -/

/-- A 100-character extraction result: long enough for the final
quality check of the node (50) but shorter than the 200-character goal of the
strategy cascade. -/
def c4Text100 : String :=
  String.mk (List.replicate 100 'a')

/-- Claim C4 is FALSE on the code: when strategy A yields 100 characters
and both fallback strategies yield nothing, the final quality check of
raw_extraction (which only rejects bodies shorter than 50 characters)
accepts the 100-character body without setting `error_message`, although
all three strategies produced fewer than 200 characters. -/
theorem c4_threshold_counterexample :
    raw_extraction_text "Page Title" c4Text100 [] [] = .ok c4Text100 ∧
    c4Text100.length = 100 ∧
    ¬ (200 ≤ c4Text100.length) := by
  refine ⟨rfl, by decide, by decide⟩

theorem raw_extraction_text_eq (pageTitle a : String) (js sel : List String) :
    raw_extraction_text pageTitle a js sel =
      if ((chooseExtractedText a js sel).isEmpty ||
          decide ((chooseExtractedText a js sel).length < 50)) = true then
        .error ("Extracted content is empty. Page Title: " ++ pageTitle)
      else .ok (chooseExtractedText a js sel) := rfl

theorem chooseExtractedText_cases (a : String) (js sel : List String) :
    (200 ≤ a.length ∧ chooseExtractedText a js sel = a) ∨
    (a.length < 200 ∧
      ∃ b, js.find? (fun x => 200 < x.length) = some b ∧
        chooseExtractedText a js sel = b) ∨
    (a.length < 200 ∧ js.find? (fun x => 200 < x.length) = none ∧
      ∃ c, sel.find? (fun x => 200 < x.length) = some c ∧
        chooseExtractedText a js sel = c) ∨
    (a.length < 200 ∧ js.find? (fun x => 200 < x.length) = none ∧
      sel.find? (fun x => 200 < x.length) = none ∧
      chooseExtractedText a js sel = a) := by
  by_cases h1 : a.length < 200
  · rcases hj : js.find? (fun x => 200 < x.length) with _ | b
    · rcases hs : sel.find? (fun x => 200 < x.length) with _ | c
      · refine Or.inr (Or.inr (Or.inr ⟨h1, hj, hs, ?_⟩))
        simp [chooseExtractedText, h1, hj, hs]
      · refine Or.inr (Or.inr (Or.inl ⟨h1, hj, c, hs, ?_⟩))
        simp [chooseExtractedText, h1, hj, hs]
    · have hb : 200 < b.length := by
        have := List.find?_some hj
        simpa using this
      have hb2 : ¬ (b.length < 200) := by omega
      refine Or.inr (Or.inl ⟨h1, b, hj, ?_⟩)
      simp [chooseExtractedText, h1, hj, hb2]
  · refine Or.inl ⟨by omega, ?_⟩
    simp [chooseExtractedText, h1]

/-- Claim C4 (amended): the success threshold of raw_extraction is 50
characters, not 200: when the node returns without `error_message` the
extracted body has at least 50 characters, and the node sets
`error_message` exactly when strategy A yielded fewer than 50 characters
and no JSON-LD body and no CSS-selector text exceeded 200 characters
(texts of 50-199 characters from strategy A are accepted although every
strategy stayed below 200). -/
theorem c4_extraction_thresholds (pageTitle newspaperText : String)
    (jsonLdBodies selectorTexts : List String) :
    (∀ t, raw_extraction_text pageTitle newspaperText jsonLdBodies
        selectorTexts = .ok t → 50 ≤ t.length) ∧
    ((∃ e, raw_extraction_text pageTitle newspaperText jsonLdBodies
        selectorTexts = .error e) ↔
      (newspaperText.length < 50 ∧
       (∀ b ∈ jsonLdBodies, b.length ≤ 200) ∧
       (∀ b ∈ selectorTexts, b.length ≤ 200))) := by
  have hempty : ∀ t : String, t.isEmpty = true → t.length = 0 := by
    intro t ht
    have h := (String.isEmpty_iff t).mp ht
    subst h
    rfl
  have hcondFalse : ∀ t : String, 50 ≤ t.length →
      (t.isEmpty || decide (t.length < 50)) = false := by
    intro t hlen
    rcases he : t.isEmpty with _ | _
    · simp only [Bool.false_or, decide_eq_false_iff_not]
      omega
    · exfalso
      have := hempty _ he
      omega
  rcases chooseExtractedText_cases newspaperText jsonLdBodies selectorTexts with
    ⟨h1, heq⟩ | ⟨h1, b, hj, heq⟩ | ⟨h1, hj, c, hs, heq⟩ | ⟨h1, hj, hs, heq⟩ <;>
    rw [raw_extraction_text_eq, heq]
  · rw [hcondFalse newspaperText (by omega)]
    refine ⟨fun t ht => ?_, ?_, ?_⟩
    · injection ht with ht
      subst ht
      omega
    · rintro ⟨e, he⟩
      exact absurd he (by simp)
    · rintro ⟨hlt, -, -⟩
      omega
  · have hb : 200 < b.length := by simpa using List.find?_some hj
    rw [hcondFalse b (by omega)]
    refine ⟨fun t ht => ?_, ?_, ?_⟩
    · injection ht with ht
      subst ht
      omega
    · rintro ⟨e, he⟩
      exact absurd he (by simp)
    · rintro ⟨-, hall, -⟩
      have := hall b (List.mem_of_find?_eq_some hj)
      omega
  · have hc : 200 < c.length := by simpa using List.find?_some hs
    rw [hcondFalse c (by omega)]
    refine ⟨fun t ht => ?_, ?_, ?_⟩
    · injection ht with ht
      subst ht
      omega
    · rintro ⟨e, he⟩
      exact absurd he (by simp)
    · rintro ⟨-, -, hall⟩
      have := hall c (List.mem_of_find?_eq_some hs)
      omega
  · have hjall : ∀ x ∈ jsonLdBodies, x.length ≤ 200 := by
      intro x hx
      have := List.find?_eq_none.mp hj x hx
      simpa using this
    have hsall : ∀ x ∈ selectorTexts, x.length ≤ 200 := by
      intro x hx
      have := List.find?_eq_none.mp hs x hx
      simpa using this
    by_cases hlt : newspaperText.length < 50
    · have hcond : (newspaperText.isEmpty ||
          decide (newspaperText.length < 50)) = true := by
        simp [hlt]
      rw [hcond]
      refine ⟨fun t ht => absurd ht (by simp), ?_, ?_⟩
      · intro _
        exact ⟨hlt, hjall, hsall⟩
      · intro _
        exact ⟨_, rfl⟩
    · rw [hcondFalse newspaperText (by omega)]
      refine ⟨fun t ht => ?_, ?_, ?_⟩
      · injection ht with ht
        subst ht
        omega
      · rintro ⟨e, he⟩
        exact absurd he (by simp)
      · rintro ⟨hl, -, -⟩
        omega

/-- Witness for c4_extraction_thresholds: at the concrete 100-character
input the result is accepted and the theorem yields the 50-character
lower bound; the error characterization applied to a 10-character input
shows the error case. -/
theorem c4_extraction_thresholds_witness :
    50 ≤ c4Text100.length ∧
    (String.mk (List.replicate 10 'a')).length < 50 := by
  constructor
  · exact (c4_extraction_thresholds "Page Title" c4Text100 [] []).1 c4Text100 rfl
  · have h := (c4_extraction_thresholds "Page Title"
      (String.mk (List.replicate 10 'a')) [] []).2.mp ⟨_, rfl⟩
    exact h.1

/-! ## Required-prompt validation (claim C5) -/

/-- A prompt store holding an active version of every prompt in
REQUIRED_PROMPTS except translation_system: the failing input for the
18-prompt presence validation the spec describes. -/
def storeMissingTranslationSystem : String → Option String :=
  fun name =>
    if name = "translation_system" then none
    else if REQUIRED_PROMPTS.contains name then some "active prompt body" else none

/-- Claim C5 describes the intended behaviour (the comment above
REQUIRED_PROMPTS says the list must match the fields of
AgentPromptsModel), but the code validates only the 14 fields that
AgentPromptsModel declares: with translation_system missing from the
store (one of the 18 required names), `load_agent_configuration`
SUCCEEDS — `AgentPromptsModel(**raw_prompts_dict)` neither requires the
four translation/country_extraction prompts nor rejects their absence,
so no fatal configuration error is raised. -/
theorem c5_missing_translation_prompt_not_fatal :
    storeMissingTranslationSystem "translation_system" = none ∧
    "translation_system" ∈ REQUIRED_PROMPTS ∧
    (load_agent_configuration storeMissingTranslationSystem []
      { source_url := "https://example.com/a" }).error_message = none ∧
    (load_agent_configuration storeMissingTranslationSystem []
      { source_url := "https://example.com/a" }).active_prompts.isSome = true := by
  refine ⟨rfl, by decide, ?_, ?_⟩ <;> decide

/-! ## Best-summary selection (claim C8) -/

theorem pythonMaxBy_mem (key : SummaryAttemptModel → ℚ) :
    ∀ (xs : List SummaryAttemptModel) (x : SummaryAttemptModel),
      pythonMaxBy key x xs ∈ x :: xs := by
  intro xs
  induction xs with
  | nil => intro x; simp [pythonMaxBy]
  | cons y ys ih =>
    intro x
    unfold pythonMaxBy at ih ⊢
    rw [List.foldl_cons]
    by_cases h : key x < key y <;> simp only [h, if_true, if_false]
    · have := ih y
      simp only [List.mem_cons] at this ⊢
      tauto
    · have := ih x
      simp only [List.mem_cons] at this ⊢
      tauto

theorem pythonMaxBy_le (key : SummaryAttemptModel → ℚ) :
    ∀ (xs : List SummaryAttemptModel) (x : SummaryAttemptModel),
      ∀ b ∈ x :: xs, key b ≤ key (pythonMaxBy key x xs) := by
  intro xs
  induction xs with
  | nil =>
    intro x b hb
    simp only [List.mem_singleton] at hb
    subst hb
    simp [pythonMaxBy]
  | cons y ys ih =>
    intro x b hb
    unfold pythonMaxBy at ih ⊢
    rw [List.foldl_cons]
    by_cases h : key x < key y <;> simp only [h, if_true, if_false]
    · rcases List.mem_cons.mp hb with rfl | hb'
      · calc key b ≤ key y := le_of_lt h
          _ ≤ key (List.foldl (fun best z => if key best < key z then z else best) y ys) :=
            ih y y (List.mem_cons_self y ys)
      · exact ih y b hb'
    · rcases List.mem_cons.mp hb with rfl | hb'
      · exact ih b b (List.mem_cons_self b ys)
      · rcases List.mem_cons.mp hb' with rfl | hb''
        · calc key b ≤ key x := le_of_not_lt h
            _ ≤ key (List.foldl (fun best z => if key best < key z then z else best) x ys) :=
              ih x x (List.mem_cons_self x ys)
        · exact ih x b (List.mem_cons.mpr (Or.inr hb''))

/-- Claim C8: for a non-error state with a non-empty attempt list,
select_best_summary copies the summary of the attempt with the greatest
semantic score (None scored as 0, earlier attempts win ties) into the
article and installs the validation of that attempt as the terminal
validation_result; the chosen attempt belongs to the list and its score
bounds every recorded score. -/
theorem c8_select_best_argmax (s : MainWorkflowState) (art : ArticleModel)
    (a : SummaryAttemptModel) (rest : List SummaryAttemptModel)
    (herr : s.error_message = none)
    (hatt : s.summary_attempts = a :: rest)
    (hart : s.news_article = some art) :
    (select_best_summary s).news_article =
      some { art with summary := some (pythonMaxBy attemptScore a rest).summary } ∧
    (select_best_summary s).validation_result =
      some (pythonMaxBy attemptScore a rest).validation ∧
    pythonMaxBy attemptScore a rest ∈ s.summary_attempts ∧
    ∀ b ∈ s.summary_attempts,
      attemptScore b ≤ attemptScore (pythonMaxBy attemptScore a rest) := by
  have hsel : select_best_summary s =
      { s with
          news_article := some { art with
            summary := some (pythonMaxBy attemptScore a rest).summary },
          validation_result := some (pythonMaxBy attemptScore a rest).validation } := by
    unfold select_best_summary
    rw [herr, hatt, hart]
    rfl
  refine ⟨by rw [hsel], by rw [hsel], ?_, ?_⟩
  · rw [hatt]
    exact pythonMaxBy_mem attemptScore rest a
  · rw [hatt]
    exact pythonMaxBy_le attemptScore rest a

/-- The three attempts of the retry-then-select scenario: semantic scores
9.5, 7.0 and 6.0 in that order, none of them valid. -/
def c8Attempt1 : SummaryAttemptModel :=
  ⟨"summary one",
    { is_valid := false, feedback := "needs work", semantic_score := some (19/2),
      tone_score := some 8 }⟩

def c8Attempt2 : SummaryAttemptModel :=
  ⟨"summary two",
    { is_valid := false, feedback := "off tone", semantic_score := some 7,
      tone_score := some 6 }⟩

def c8Attempt3 : SummaryAttemptModel :=
  ⟨"summary three",
    { is_valid := false, feedback := "too short", semantic_score := some 6,
      tone_score := some 5 }⟩

def c8State : MainWorkflowState :=
  { source_url := "https://example.com/a",
    cleaned_article_text := some "the article text",
    news_article := some { title := some "T" },
    validation_count := 3,
    summary_attempts := [c8Attempt1, c8Attempt2, c8Attempt3],
    max_retries := 3 }

/-- Witness for c8_select_best_argmax: with per-attempt scores 9.5, 7.0,
6.0 the chosen attempt is attempt 1, the final summary equals attempt 1
and the terminal validation carries semantic_score 9.5. -/
theorem c8_select_best_argmax_witness :
    c8State.error_message = none ∧
    c8State.summary_attempts = c8Attempt1 :: [c8Attempt2, c8Attempt3] ∧
    c8State.news_article = some { title := some "T" } ∧
    pythonMaxBy attemptScore c8Attempt1 [c8Attempt2, c8Attempt3] = c8Attempt1 ∧
    (select_best_summary c8State).news_article =
      some { title := some "T",
             summary := some (pythonMaxBy attemptScore c8Attempt1
               [c8Attempt2, c8Attempt3]).summary } ∧
    (select_best_summary c8State).validation_result =
      some (pythonMaxBy attemptScore c8Attempt1 [c8Attempt2, c8Attempt3]).validation ∧
    ((select_best_summary c8State).validation_result.map
      (fun v => v.semantic_score)) = some (some (19/2)) := by
  have h := c8_select_best_argmax c8State { title := some "T" } c8Attempt1
    [c8Attempt2, c8Attempt3] rfl rfl rfl
  have h12 : ¬ (attemptScore c8Attempt1 < attemptScore c8Attempt2) := by
    simp only [attemptScore, c8Attempt1, c8Attempt2, Option.getD_some]
    norm_num
  have h13 : ¬ (attemptScore c8Attempt1 < attemptScore c8Attempt3) := by
    simp only [attemptScore, c8Attempt1, c8Attempt3, Option.getD_some]
    norm_num
  have hbest : pythonMaxBy attemptScore c8Attempt1 [c8Attempt2, c8Attempt3] =
      c8Attempt1 := by
    unfold pythonMaxBy
    rw [List.foldl_cons, if_neg h12, List.foldl_cons, if_neg h13, List.foldl_nil]
  exact ⟨rfl, rfl, rfl, hbest, h.1, h.2.1, by rw [h.2.1, hbest]; rfl⟩

/-! ## Category resolution (claim C9) -/

/-- The per-name resolution: exact dict lookup first, else the normalized
lookup in the map derived once from the category mapping. -/
def resolveOneCategory (mapping : List (String × String)) (cat_name : String) :
    Option String :=
  match mapping.lookup cat_name with
  | some uid => some uid
  | none => (buildNormalizedMap mapping).lookup (normalizeCategoryName cat_name)

theorem foldl_filterMap_aux (g : String → Option String) :
    ∀ (l : List String) (acc : List String),
      l.foldl (fun ids n =>
        match g n with
        | some u => ids ++ [u]
        | none => ids) acc = acc ++ l.filterMap g := by
  intro l
  induction l with
  | nil => intro acc; simp
  | cons n ns ih =>
    intro acc
    rw [List.foldl_cons, List.filterMap_cons]
    rcases hg : g n with _ | u <;> simp only [hg]
    · rw [ih]
    · rw [ih]
      simp

theorem resolveCategoryIds_eq_filterMap (mapping : List (String × String))
    (predicted : List String) :
    resolveCategoryIds mapping predicted =
      predicted.filterMap (resolveOneCategory mapping) := by
  unfold resolveCategoryIds
  have hfun : (fun (mapped_ids : List String) (cat_name : String) =>
      match mapping.lookup cat_name with
      | some uid => mapped_ids ++ [uid]
      | none =>
        match (buildNormalizedMap mapping).lookup
            (normalizeCategoryName cat_name) with
        | some uid => mapped_ids ++ [uid]
        | none => mapped_ids) =
      (fun (ids : List String) (n : String) =>
        match resolveOneCategory mapping n with
        | some u => ids ++ [u]
        | none => ids) := by
    funext ids n
    unfold resolveOneCategory
    rcases mapping.lookup n with _ | uid
    · rfl
    · rfl
  dsimp only []
  rw [hfun]
  simpa using foldl_filterMap_aux (resolveOneCategory mapping) predicted []

/-- Claim C9: on a guard-passing state, categorize_article stores the
predicted names and the resolved external ids on the article; resolution
is per-name (exact match first, else the normalized lookup derived once
from the mapping, skipping unmatched names, visible as a filterMap), and
in particular with `category_mapping = [("Market News", "id-1")]` the
predicted name "**market news**" resolves to ["id-1"]. -/
theorem c9_categorize_resolution (predicted : List String)
    (s : MainWorkflowState) (art : ArticleModel)
    (mapping : List (String × String)) (txt : String)
    (hart : s.news_article = some art)
    (hsum : optStrFalsy art.summary = false)
    (htxt : s.cleaned_article_text = some txt)
    (hmap : s.category_mapping = some mapping) :
    categorize_article (.ok predicted) s =
      { s with
          news_article := some { art with
            category := predicted,
            category_ids := resolveCategoryIds mapping predicted } } ∧
    resolveCategoryIds mapping predicted =
      predicted.filterMap (resolveOneCategory mapping) ∧
    resolveCategoryIds [("Market News", "id-1")] ["**market news**"] =
      ["id-1"] := by
  refine ⟨?_, resolveCategoryIds_eq_filterMap mapping predicted, by decide⟩
  unfold categorize_article
  rw [hart, htxt, hmap]
  simp only [hsum, Bool.false_eq_true, if_false]
  rfl

/-- Concrete guard-passing state for the category-resolution witness. -/
def c9State : MainWorkflowState :=
  { source_url := "https://example.com/a",
    cleaned_article_text := some "the article text",
    news_article := some { title := some "T", summary := some "a summary" },
    category_mapping := some [("Market News", "id-1")] }

/-- Witness for c9_categorize_resolution: the predicted name
"**market news**" is stored with the resolved external ids ["id-1"]. -/
theorem c9_categorize_resolution_witness :
    c9State.news_article = some { title := some "T", summary := some "a summary" } ∧
    optStrFalsy ({ title := some "T", summary := some "a summary" } : ArticleModel).summary = false ∧
    c9State.cleaned_article_text = some "the article text" ∧
    c9State.category_mapping = some [("Market News", "id-1")] ∧
    categorize_article (.ok ["**market news**"]) c9State =
      { c9State with
          news_article := some
            { title := some "T", summary := some "a summary",
              category := ["**market news**"],
              category_ids := resolveCategoryIds [("Market News", "id-1")] ["**market news**"] } } ∧
    resolveCategoryIds [("Market News", "id-1")] ["**market news**"] = ["id-1"] := by
  have h := c9_categorize_resolution ["**market news**"] c9State
    { title := some "T", summary := some "a summary" } [("Market News", "id-1")]
    "the article text" rfl rfl rfl rfl
  exact ⟨rfl, rfl, rfl, rfl, h.1, h.2.2⟩

/-! ## Retry-prompt selection (claim C10) -/

theorem summaryPromptChoice_eq_retry (s : MainWorkflowState) :
    summaryPromptChoice s = .retry ↔
      ∃ vr, s.validation_result = some vr ∧
        vr.feedback ≠ "Validation not yet run." := by
  unfold summaryPromptChoice
  rcases hv : s.validation_result with _ | vr
  · simp
  · by_cases hf : vr.feedback = "Validation not yet run."
    · simp [hf]
    · simp [hf]

/-- Claim C10: generate_summary uses the retry template iff the incoming
validation_result is non-null and its feedback differs from the literal
default "Validation not yet run."; a validation result carrying exactly
the sentinel feedback makes the iteration behave as a first attempt
(initial template); and every successful generation resets
validation_result to null. -/
theorem c10_retry_prompt_condition (llm : LLMOutcome String)
    (s : MainWorkflowState)
    (htext : optStrFalsy s.cleaned_article_text = false)
    (hart : s.news_article.isSome = true) :
    ((generate_summary llm s).2 = some .retry ↔
      ∃ vr, s.validation_result = some vr ∧
        vr.feedback ≠ "Validation not yet run.") ∧
    (∀ vr, s.validation_result = some vr →
      vr.feedback = "Validation not yet run." →
      (generate_summary llm s).2 = some .initial) ∧
    (∀ t, llm = .ok t →
      (generate_summary llm s).1.validation_result = none) := by
  rcases ha : s.news_article with _ | art
  · rw [ha] at hart
    simp at hart
  · have hsnd : (generate_summary llm s).2 = some (summaryPromptChoice s) := by
      unfold generate_summary
      simp only [htext, Bool.false_eq_true, if_false]
      rw [ha]
      cases llm <;> rfl
    refine ⟨?_, ?_, ?_⟩
    · rw [hsnd]
      rw [show ∀ c : SummaryPromptChoice, (some c = some SummaryPromptChoice.retry) =
          (c = .retry) from fun c => by simp]
      exact summaryPromptChoice_eq_retry s
    · intro vr hvr hfb
      rw [hsnd]
      have hch : summaryPromptChoice s = .initial := by
        unfold summaryPromptChoice
        rw [hvr]
        simp [hfb]
      rw [hch]
    · intro t hok
      subst hok
      unfold generate_summary
      simp only [htext, Bool.false_eq_true, if_false]
      rw [ha]

/-- A retry-round state: one recorded attempt whose validator feedback is
real (not the sentinel). -/
def c10RetryState : MainWorkflowState :=
  { source_url := "https://example.com/a",
    cleaned_article_text := some "the article text",
    news_article := some { title := some "T", summary := some "draft" },
    validation_count := 1,
    validation_result := some
      { is_valid := false, feedback := "Add more detail.",
        semantic_score := some 4, tone_score := some 5 },
    summary_attempts := [⟨"draft",
      { is_valid := false, feedback := "Add more detail.",
        semantic_score := some 4, tone_score := some 5 }⟩] }

/-- Witness for c10_retry_prompt_condition: with real feedback in
validation_result the retry template is chosen, and a successful
generation clears validation_result. -/
theorem c10_retry_prompt_condition_witness :
    optStrFalsy c10RetryState.cleaned_article_text = false ∧
    c10RetryState.news_article.isSome = true ∧
    (generate_summary (.ok "second draft") c10RetryState).2 = some .retry ∧
    (generate_summary (.ok "second draft") c10RetryState).1.validation_result =
      none := by
  have h := c10_retry_prompt_condition (.ok "second draft") c10RetryState rfl rfl
  refine ⟨rfl, rfl, ?_, h.2.2 "second draft" rfl⟩
  exact h.1.mpr ⟨_, rfl, by decide⟩

/-! ## Remaining witnesses -/

/-- Witness for c1_queue_is_lifo at a concrete three-envelope batch. -/
theorem c1_queue_is_lifo_witness :
    drainQueue (enqueueAll [] ["e1", "e2", "e3"]) = ["e3", "e2", "e1"] :=
  c1_queue_is_lifo ["e1", "e2", "e3"]

/-- Witness for c2_scheduler_bypasses_governance at a concrete source,
instantiating the per-effect implication at the fetchListing effect. -/
theorem c2_scheduler_bypasses_governance_witness :
    (check_single_source "src-1" "https://news.example/" (some "<html>")
      (fun _ => ["https://news.example/a1"]) [] (fun _ => true)
      (fun _ => true)).head? = some (.fetchListing "https://news.example/") ∧
    (SchedEffect.fetchListing "https://news.example/").isGovernance = false :=
  have h := c2_scheduler_bypasses_governance "src-1" "https://news.example/"
    (some "<html>") (fun _ => ["https://news.example/a1"]) [] (fun _ => true)
    (fun _ => true)
  ⟨h.1, h.2 (.fetchListing "https://news.example/") (by decide)⟩

/-- Witness for c6_default_allow_same_ttl at a concrete fetch outcome. -/
theorem c6_default_allow_same_ttl_witness :
    (can_fetch none none).1 = true ∧
    (can_fetch none (some false)).2.all (fun w => w.ttlSeconds = 86400) :=
  ⟨(c6_default_allow_same_ttl (some false)).1,
   (c6_default_allow_same_ttl (some false)).2⟩

/-- Entry state of the validation loop for the C7 witness. -/
def c7Start : MainWorkflowState :=
  { source_url := "https://example.com/a",
    cleaned_article_text := some "the article text",
    news_article := some { title := some "T" } }

/-- A passing validator verdict. -/
def c7ValOk : ValidationResultModel :=
  { is_valid := true, feedback := "Good.", semantic_score := some 9,
    tone_score := some 9 }

/-- The loop exit state of the C7 witness run. -/
def c7LoopFinal : MainWorkflowState :=
  validate_summary (.ok c7ValOk)
    ((generate_summary (.ok "a summary") c7Start).1)

/-- The node trace of a completed graph run. -/
def c7Trace : List GraphNode :=
  [.load_agent_configuration, .fetch_content, .extract_links,
   .generate_summary, .validate_summary, .select_best_summary,
   .check_embedded_links, .find_other_sources, .categorize_article,
   .generate_seo, .notify_webhook]

/-- Witness for c7_loop_bound_and_select_once: a run whose validator
approves on the first attempt satisfies the bound, and a completed graph
run visits select_best_summary exactly once. -/
theorem c7_loop_bound_and_select_once_witness :
    c7Start.validation_count = c7Start.summary_attempts.length ∧
    (c7Start.validation_count = 0 ∨
      c7Start.validation_count < c7Start.max_retries) ∧
    runValidationLoop (fun _ => .ok "a summary") (fun _ => .ok c7ValOk) 4 0
      c7Start = some c7LoopFinal ∧
    runGraph (fun _ t => t) 12 .load_agent_configuration c7Start =
      some (c7Start, c7Trace) ∧
    c7LoopFinal.validation_count ≤ c7LoopFinal.max_retries + 1 ∧
    c7Trace.count .select_best_summary = 1 := by
  have h := c7_loop_bound_and_select_once (fun _ => .ok "a summary")
    (fun _ => .ok c7ValOk) (fun _ t => t) 4 12 0 c7Start c7LoopFinal c7Start
    c7Start c7Trace rfl (Or.inl rfl) rfl rfl
  exact ⟨rfl, Or.inl rfl, rfl, rfl, h.1, h.2.1⟩

end NewsAgent
